import Mathlib

/-!
Shallow embedding of `src/streamlit_app.py`, a single-page Streamlit
dashboard over two hard-coded tables (borehole locations and lithology
intervals).  Reals of the source are modelled as `ℚ`; the pandas
dataframes as lists of records; the render of the detail pane as a pure
function from the selected id to an abstract output value.  A `none`
result models an uncaught runtime error (the source indexes `.iloc[0]`
on an unguarded lookup).
-/

/-- One row of the `loca_data` table (lines 13-17 of the source). -/
structure Loca where
  loca_id : String
  loca_gl : ℚ
  easting : ℚ
  northing : ℚ
deriving DecidableEq, Repr

/-- One row of the `litho_data` table (lines 21-32 of the source). -/
structure Litho where
  loca_id : String
  top_bg : ℚ
  base_bg : ℚ
  geol_code : String
  geol_desc : String
deriving DecidableEq, Repr

/-- The hard-coded location table `loca_data`. -/
def loca_data : List Loca :=
  [ ⟨"BH01", 50, 551000, 180000⟩
  , ⟨"BH02", 97/2, 552000, 180500⟩
  , ⟨"BH03", 46, 551500, 181000⟩ ]

/-- The hard-coded lithology table `litho_data`. -/
def litho_data : List Litho :=
  [ ⟨"BH01", 0, 1, "HWH_CLAY", "Harwich Formation silty clay"⟩
  , ⟨"BH01", 1, 3, "HWH_SILTSTONE", "Harwich siltstone"⟩
  , ⟨"BH01", 3, 5, "LONDON_CLAY", "London Clay very stiff"⟩
  , ⟨"BH02", 0, 2, "HWH_CLAY", "Harwich Formation silty clay"⟩
  , ⟨"BH02", 2, 7/2, "LONDON_CLAY", "London Clay sandy"⟩
  , ⟨"BH03", 0, 6/5, "HWH_CLAY", "Harwich Formation silty clay"⟩
  , ⟨"BH03", 6/5, 4, "LONDON_CLAY", "London Clay laminated"⟩ ]

/-- The `formation_colors` dict (lines 38-42). -/
def formation_colors : List (String × String) :=
  [ ("HWH_CLAY", "#e377c2")
  , ("HWH_SILTSTONE", "#17becf")
  , ("LONDON_CLAY", "#bcbd22") ]

/-- `default_color` (line 43). -/
def default_color : String := "#cccccc"

/-- `formation_colors.get(code, default_color)` (line 117). -/
def colorFor (code : String) : String :=
  match formation_colors.lookup code with
  | some c => c
  | none => default_color

/-- Ordering of intervals by top depth, used by
`sort_values` with key `TOP_BG` (line 110). -/
def topLE (a b : Litho) : Prop := a.top_bg ≤ b.top_bg

instance : DecidableRel topLE := fun a b =>
  inferInstanceAs (Decidable (a.top_bg ≤ b.top_bg))

instance : IsTotal Litho topLE := ⟨fun a b => le_total a.top_bg b.top_bg⟩

instance : IsTrans Litho topLE := ⟨fun _ _ _ => le_trans⟩

/-- Line 109 of the source, the `.iloc[0]` lookup on the rows of
`loca_df` whose `LOCA_ID` equals the selected id: the first location
row whose id matches, `none` when there is no such row. -/
def findLocaIn (L : List Loca) (id : String) : Option Loca :=
  L.find? (fun r => r.loca_id == id)

/-- Line 110 of the source: the rows of `litho_df` whose `LOCA_ID`
equals the selected id, sorted ascending by `TOP_BG` via `sort_values`. -/
def intervalsForIn (T : List Litho) (id : String) : List Litho :=
  List.insertionSort topLE (T.filter (fun r => r.loca_id == id))

def findLoca (id : String) : Option Loca := findLocaIn loca_data id

def intervalsFor (id : String) : List Litho := intervalsForIn litho_data id

/-- A matplotlib rectangle patch as added on lines 118-126. -/
structure Rect where
  x : ℚ
  y : ℚ
  width : ℚ
  height : ℚ
  facecolor : String
  edgecolor : String
deriving DecidableEq, Repr

/-- The rectangle drawn for one interval (lines 114-126):
`(0.05, base_m_od)`, width `0.9`, height `top_m_od - base_m_od`,
face color from the formation map, black edge. -/
def rectFor (gl : ℚ) (r : Litho) : Rect :=
  { x := 1/20
  , y := gl - r.base_bg
  , width := 9/10
  , height := (gl - r.top_bg) - (gl - r.base_bg)
  , facecolor := colorFor r.geol_code
  , edgecolor := "black" }

/-- `ax.text` label for one interval (lines 128-129): x `0.5`,
y the midpoint of the two elevations, text the geology code. -/
def labelFor (gl : ℚ) (r : Litho) : ℚ × ℚ × String :=
  (1/2, ((gl - r.top_bg) + (gl - r.base_bg)) / 2, r.geol_code)

/-- Line 131 of the source: the `.min()` of ground_level minus `BASE_BG`
over the interval rows.  The `[]` case is never reached by `renderWith`: the source
only evaluates `.min()` after the non-empty guard on line 111. -/
def minBaseElev (gl : ℚ) : List Litho → ℚ
  | [] => 0
  | [r] => gl - r.base_bg
  | r :: s :: rs => min (gl - r.base_bg) (minBaseElev gl (s :: rs))

/-- The matplotlib figure as configured on lines 113-137. -/
structure ChartView where
  rects : List Rect
  labels : List (ℚ × ℚ × String)
  ylim_lo : ℚ
  ylim_hi : ℚ
  xlim_lo : ℚ
  xlim_hi : ℚ
  y_inverted : Bool
deriving DecidableEq, Repr

/-- The chart built for a ground level and interval list
(lines 113-137): one rectangle and one label per interval, y limits
from the minimum base elevation minus 0.5 up to ground level plus 0.5,
x limits 0..1, y axis inverted (`ax.invert_yaxis()`, line 135). -/
def chartFor (gl : ℚ) (intervals : List Litho) : ChartView :=
  { rects := intervals.map (rectFor gl)
  , labels := intervals.map (labelFor gl)
  , ylim_lo := minBaseElev gl intervals - 1/2
  , ylim_hi := gl + 1/2
  , xlim_lo := 0
  , xlim_hi := 1
  , y_inverted := true }

/-- A cell of the displayed dataframe. -/
inductive Value
  | num (q : ℚ)
  | str (s : String)
deriving DecidableEq, Repr

/-- A dataframe as handed to `st.dataframe`. -/
structure TableView where
  columns : List String
  rows : List (List Value)
  hide_index : Bool
deriving DecidableEq, Repr

/-- The displayed interval table (lines 141-147): the sorted intervals
with the two derived elevation columns computed, then projected to the
four columns `Top_elev_OD`, `Base_elev_OD`, `GEOL_CODE`, `GEOL_DESC`
and shown with `hide_index=True`. -/
def tableFor (gl : ℚ) (intervals : List Litho) : TableView :=
  { columns := ["Top_elev_OD", "Base_elev_OD", "GEOL_CODE", "GEOL_DESC"]
  , rows := intervals.map (fun r =>
      [ Value.num (gl - r.top_bg), Value.num (gl - r.base_bg)
      , Value.str r.geol_code, Value.str r.geol_desc ])
  , hide_index := true }

/-- `st.info` message of line 149. -/
def infoMsg : String := "No lithology data available for this location."

/-- Prompt markdown of line 151. -/
def promptMsg : String :=
  "_Select a point on the map or choose from the dropdown to see lithology details._"

/-- What the left pane renders below the selectbox. -/
inductive RenderOutput
  | prompt (msg : String)
  | info (msg : String)
  | detail (chart : ChartView) (tbl : TableView)
deriving DecidableEq, Repr

/-- The detail pane (lines 108-151) as a function of the tables and the
selected id.  `none` models the uncaught IndexError of `.iloc[0]` when a
non-blank id has no location row; the selectbox never produces such an
id, but the lookup itself is unguarded. -/
def renderWith (L : List Loca) (T : List Litho) (selected_id : String) :
    Option RenderOutput :=
  if selected_id = "" then
    some (RenderOutput.prompt promptMsg)
  else
    match findLocaIn L selected_id with
    | none => none
    | some borehole =>
      let intervals := intervalsForIn T selected_id
      if intervals.isEmpty then
        some (RenderOutput.info infoMsg)
      else
        some (RenderOutput.detail (chartFor borehole.loca_gl intervals)
          (tableFor borehole.loca_gl intervals))

def render (selected_id : String) : Option RenderOutput :=
  renderWith loca_data litho_data selected_id

/-- Line 105 of the source: the options of the selectbox, a blank
option followed by the `LOCA_ID` column of `loca_df`. -/
def selectOptionsOf (L : List Loca) : List String :=
  "" :: L.map (fun r => r.loca_id)

def selectOptions : List String := selectOptionsOf loca_data

/-- Following the words of the spec for the displayed interval table:
the same filtered and top_depth-sorted interval set, with the two
derived elevation columns appended to it (so all five original columns
followed by the two derived ones), without a row index.  Declared only
to be compared against `tableFor`, the table the source displays. -/
def specAppendedTable (gl : ℚ) (intervals : List Litho) : TableView :=
  { columns := [ "LOCA_ID", "TOP_BG", "BASE_BG", "GEOL_CODE", "GEOL_DESC"
               , "Top_elev_OD", "Base_elev_OD" ]
  , rows := intervals.map (fun r =>
      [ Value.str r.loca_id, Value.num r.top_bg, Value.num r.base_bg
      , Value.str r.geol_code, Value.str r.geol_desc
      , Value.num (gl - r.top_bg), Value.num (gl - r.base_bg) ])
  , hide_index := true }

/-- The table shown by a render output, when one is shown. -/
def displayedTable : Option RenderOutput → Option TableView
  | some (RenderOutput.detail _ t) => some t
  | _ => none

/-!  Helper lemmas shared by the claim theorems. -/

/-- Inversion of the render: a detail output pins down the chart and the
table as the ones built from the ground level of the looked-up location
and the sorted intervals of the selected id. -/
theorem render_detail_inv (L : List Loca) (T : List Litho) (id : String)
    (loca : Loca) (c : ChartView) (t : TableView)
    (h1 : findLocaIn L id = some loca)
    (h2 : renderWith L T id = some (RenderOutput.detail c t)) :
    intervalsForIn T id ≠ [] ∧
    c = chartFor loca.loca_gl (intervalsForIn T id) ∧
    t = tableFor loca.loca_gl (intervalsForIn T id) := by
  by_cases hid : id = ""
  · simp [renderWith, hid] at h2
  · simp only [renderWith, if_neg hid, h1] at h2
    by_cases he : (intervalsForIn T id).isEmpty = true
    · simp [he] at h2
    · rw [if_neg he] at h2
      simp only [Option.some.injEq, RenderOutput.detail.injEq] at h2
      refine ⟨?_, h2.1.symm, h2.2.symm⟩
      intro hnil
      exact he (by simp [hnil])

/-- The value defined from the `.min()` of line 131 is a lower bound of
the base elevations over the list. -/
theorem minBaseElev_le (gl : ℚ) :
    ∀ l : List Litho, ∀ r ∈ l, minBaseElev gl l ≤ gl - r.base_bg := by
  intro l
  induction l with
  | nil => intro r hr; cases hr
  | cons x xs ih =>
    intro r hr
    cases xs with
    | nil =>
      have hx : r = x := by simpa using hr
      subst hx
      simp [minBaseElev]
    | cons y ys =>
      simp only [minBaseElev]
      rcases List.mem_cons.mp hr with h | h
      · subst h; exact min_le_left _ _
      · exact le_trans (min_le_right _ _) (ih r h)

/-- The value defined from the `.min()` of line 131 is attained on a
non-empty list. -/
theorem minBaseElev_attained (gl : ℚ) :
    ∀ l : List Litho, l ≠ [] → ∃ r ∈ l, minBaseElev gl l = gl - r.base_bg := by
  intro l
  induction l with
  | nil => intro h; cases h rfl
  | cons x xs ih =>
    intro _
    cases xs with
    | nil => exact ⟨x, by simp, by simp [minBaseElev]⟩
    | cons y ys =>
      obtain ⟨r, hr, he⟩ := ih (by simp)
      by_cases hc : gl - x.base_bg ≤ minBaseElev gl (y :: ys)
      · exact ⟨x, by simp, by simp [minBaseElev, min_eq_left hc]⟩
      · refine ⟨r, by simp [List.mem_cons.mp hr], ?_⟩
        simp only [minBaseElev]
        rw [min_eq_right (le_of_not_le hc), he]

/-- C1: for every rendered interval row of a selected location, the
derived top elevation equals the ground level of the location minus the
top depth of the interval, and the derived base elevation equals the
ground level minus the base depth.  The witness below instantiates the
example of the spec: location BH01 with ground level 50 and the
interval with top 1 and base 3 yields top elevation 49 and base
elevation 47. -/
theorem C1_elevation_rows (L : List Loca) (T : List Litho) (id : String)
    (loca : Loca) (c : ChartView) (t : TableView)
    (h1 : findLocaIn L id = some loca)
    (h2 : renderWith L T id = some (RenderOutput.detail c t)) :
    t.rows = (intervalsForIn T id).map (fun r =>
      [ Value.num (loca.loca_gl - r.top_bg), Value.num (loca.loca_gl - r.base_bg)
      , Value.str r.geol_code, Value.str r.geol_desc ]) := by
  obtain ⟨-, -, ht⟩ := render_detail_inv L T id loca c t h1 h2
  rw [ht]
  rfl

/-- Witness for C1 at BH01: the second rendered row, the interval with
top 1 and base 3, carries top elevation 49 and base elevation 47. -/
theorem C1_elevation_rows_witness :
    (tableFor 50 (intervalsFor "BH01")).rows =
      [ [ Value.num 50, Value.num 49
        , Value.str "HWH_CLAY", Value.str "Harwich Formation silty clay" ]
      , [ Value.num 49, Value.num 47
        , Value.str "HWH_SILTSTONE", Value.str "Harwich siltstone" ]
      , [ Value.num 47, Value.num 45
        , Value.str "LONDON_CLAY", Value.str "London Clay very stiff" ] ] := by
  have h := C1_elevation_rows loca_data litho_data "BH01"
    ⟨"BH01", 50, 551000, 180000⟩
    (chartFor 50 (intervalsFor "BH01")) (tableFor 50 (intervalsFor "BH01"))
    (by simp [findLocaIn, loca_data, List.find?])
    (by simp [renderWith, findLocaIn, loca_data, List.find?, intervalsForIn,
      intervalsFor, litho_data, topLE])
  rw [h]
  simp [intervalsFor, intervalsForIn, litho_data, topLE]
  norm_num

/-- C2: for a selected location id with intervals, the list used for
rendering consists exactly of the rows of the lithology table whose
location id equals the selection (a permutation of the filtered rows),
is sorted ascending by top depth, and has length equal to the count of
matching rows. -/
theorem C2_interval_list (id : String) (_h : intervalsFor id ≠ []) :
    (intervalsFor id).Sorted topLE ∧
    (intervalsFor id).Perm (litho_data.filter (fun r => r.loca_id == id)) ∧
    (intervalsFor id).length = litho_data.countP (fun r => r.loca_id == id) := by
  refine ⟨List.sorted_insertionSort topLE _, List.perm_insertionSort topLE _, ?_⟩
  rw [List.countP_eq_length_filter]
  exact (List.perm_insertionSort topLE _).length_eq

/-- Witness for C2 at BH01: three intervals, sorted by top depth,
matching the three BH01 rows of the lithology table. -/
theorem C2_interval_list_witness :
    intervalsFor "BH01" ≠ [] ∧
    ((intervalsFor "BH01").Sorted topLE ∧
     (intervalsFor "BH01").Perm (litho_data.filter (fun r => r.loca_id == "BH01")) ∧
     (intervalsFor "BH01").length = litho_data.countP (fun r => r.loca_id == "BH01")) :=
  ⟨by simp [intervalsFor, intervalsForIn, litho_data, topLE],
   C2_interval_list "BH01" (by simp [intervalsFor, intervalsForIn, litho_data, topLE])⟩

/-- C4: for a selected (non-blank) location id whose lithology interval
list is empty, the render is exactly the informational empty-state
message, with no chart and no table; and this is the only guarded
condition: whatever the tables and the selection, an informational
output only ever arises with this message, for a non-blank selection
whose interval list is empty. -/
theorem C4_empty_state (L : List Loca) (T : List Litho) (id : String) (loca : Loca)
    (h1 : id ≠ "")
    (h2 : findLocaIn L id = some loca)
    (h3 : intervalsForIn T id = []) :
    renderWith L T id = some (RenderOutput.info infoMsg) ∧
    ∀ (A : List Loca) (B : List Litho) (x : String) (m : String),
      renderWith A B x = some (RenderOutput.info m) →
      m = infoMsg ∧ x ≠ "" ∧ intervalsForIn B x = [] := by
  constructor
  · simp [renderWith, if_neg h1, h2, h3]
  · intro A B x m hm
    by_cases hx : x = ""
    · simp [renderWith, hx] at hm
    · cases hf : findLocaIn A x with
      | none => simp [renderWith, if_neg hx, hf] at hm
      | some b =>
        simp only [renderWith, if_neg hx, hf] at hm
        by_cases he : (intervalsForIn B x).isEmpty = true
        · rw [if_pos he] at hm
          simp only [Option.some.injEq, RenderOutput.info.injEq] at hm
          exact ⟨hm.symm, hx, by simpa using he⟩
        · rw [if_neg he] at hm
          simp at hm

/-- Witness for C4: with the location table of the source and an empty
lithology table, selecting BH01 renders the empty-state message, and
the message is the only informational output the render can produce. -/
theorem C4_empty_state_witness :
    renderWith loca_data [] "BH01" = some (RenderOutput.info infoMsg) ∧
    ∀ (A : List Loca) (B : List Litho) (x : String) (m : String),
      renderWith A B x = some (RenderOutput.info m) →
      m = infoMsg ∧ x ≠ "" ∧ intervalsForIn B x = [] :=
  C4_empty_state loca_data [] "BH01" ⟨"BH01", 50, 551000, 180000⟩
    (by simp)
    (by simp [findLocaIn, loca_data, List.find?])
    (by simp [intervalsForIn])

/-- C5: choosing the blank option renders the prompt message and
neither a chart nor a table, and the selectbox lists the blank option
followed by every location id of the table. -/
theorem C5_blank_selection :
    render "" = some (RenderOutput.prompt promptMsg) ∧
    selectOptions = "" :: loca_data.map (fun r => r.loca_id) ∧
    selectOptions = ["", "BH01", "BH02", "BH03"] := by
  refine ⟨by simp [render, renderWith], rfl, ?_⟩
  simp [selectOptions, selectOptionsOf, loca_data]

/-- C6: for a selected location with intervals, the upper y limit of
the chart is the ground level plus the margin 0.5, the y axis is
inverted so that ground level sits at the top, and the lower y limit is
the minimum base elevation over the intervals minus the margin 0.5:
a lower bound of every base elevation minus 0.5, attained at one of the
intervals. -/
theorem C6_vertical_axis (L : List Loca) (T : List Litho) (id : String)
    (loca : Loca) (c : ChartView) (t : TableView)
    (h1 : findLocaIn L id = some loca)
    (h2 : renderWith L T id = some (RenderOutput.detail c t)) :
    c.ylim_hi = loca.loca_gl + 1/2 ∧
    c.y_inverted = true ∧
    (∀ r ∈ intervalsForIn T id, c.ylim_lo ≤ (loca.loca_gl - r.base_bg) - 1/2) ∧
    (∃ r ∈ intervalsForIn T id, c.ylim_lo = (loca.loca_gl - r.base_bg) - 1/2) := by
  obtain ⟨hne, hc, -⟩ := render_detail_inv L T id loca c t h1 h2
  subst hc
  simp only [chartFor]
  refine ⟨trivial, trivial, ?_, ?_⟩
  · intro r hr
    exact sub_le_sub_right (minBaseElev_le loca.loca_gl _ r hr) _
  · obtain ⟨r, hr, he⟩ := minBaseElev_attained loca.loca_gl _ hne
    exact ⟨r, hr, by rw [he]⟩

/-- Witness for C6 at BH02: ground level 48.5, deepest base depth 3.5,
so the chart spans from 44.5 up to 49 with the y axis inverted. -/
theorem C6_vertical_axis_witness :
    (chartFor (97/2) (intervalsFor "BH02")).ylim_hi = 97/2 + 1/2 ∧
    (chartFor (97/2) (intervalsFor "BH02")).y_inverted = true ∧
    (∀ r ∈ intervalsFor "BH02",
      (chartFor (97/2) (intervalsFor "BH02")).ylim_lo ≤ ((97:ℚ)/2 - r.base_bg) - 1/2) ∧
    (∃ r ∈ intervalsFor "BH02",
      (chartFor (97/2) (intervalsFor "BH02")).ylim_lo = ((97:ℚ)/2 - r.base_bg) - 1/2) :=
  C6_vertical_axis loca_data litho_data "BH02" ⟨"BH02", 97/2, 552000, 180500⟩
    (chartFor (97/2) (intervalsFor "BH02")) (tableFor (97/2) (intervalsFor "BH02"))
    (by simp [findLocaIn, loca_data, List.find?])
    (by simp [renderWith, findLocaIn, loca_data, List.find?, intervalsForIn,
      intervalsFor, litho_data, topLE])

/-- C7 counterexample: at BH01 the displayed table is not the interval
set with the two derived elevation columns appended.  The table built
by appending the derived columns to the interval rows keeps the
LOCA_ID, TOP_BG and BASE_BG columns; the table the source hands to
`st.dataframe` is projected to only four columns, elevations first. -/
theorem C7_counterexample :
    displayedTable (render "BH01") ≠
      some (specAppendedTable 50 (intervalsFor "BH01")) ∧
    displayedTable (render "BH01") = some (tableFor 50 (intervalsFor "BH01")) ∧
    (tableFor 50 (intervalsFor "BH01")).columns =
      ["Top_elev_OD", "Base_elev_OD", "GEOL_CODE", "GEOL_DESC"] ∧
    (specAppendedTable 50 (intervalsFor "BH01")).columns =
      [ "LOCA_ID", "TOP_BG", "BASE_BG", "GEOL_CODE", "GEOL_DESC"
      , "Top_elev_OD", "Base_elev_OD" ] := by
  have hd : displayedTable (render "BH01") = some (tableFor 50 (intervalsFor "BH01")) := by
    simp [displayedTable, render, renderWith, findLocaIn, loca_data, List.find?,
      intervalsFor, intervalsForIn, litho_data, topLE]
  refine ⟨?_, hd, rfl, rfl⟩
  rw [hd]
  intro h
  have hc := congrArg (fun o => Option.map TableView.columns o) h
  simp [tableFor, specAppendedTable] at hc

/-- C7 (amended): the displayed interval table has the same rows, in
the same order, as the filtered and top_depth-sorted interval set used
by the chart; each displayed row holds the two derived elevation
columns (ground level minus top depth, ground level minus base depth)
followed by the geology code and description, the raw id and depth
columns not being displayed; and the table is shown without a row
index. -/
theorem C7_displayed_table (L : List Loca) (T : List Litho) (id : String)
    (loca : Loca) (c : ChartView) (t : TableView)
    (h1 : findLocaIn L id = some loca)
    (h2 : renderWith L T id = some (RenderOutput.detail c t)) :
    t.columns = ["Top_elev_OD", "Base_elev_OD", "GEOL_CODE", "GEOL_DESC"] ∧
    t.rows = (intervalsForIn T id).map (fun r =>
      [ Value.num (loca.loca_gl - r.top_bg), Value.num (loca.loca_gl - r.base_bg)
      , Value.str r.geol_code, Value.str r.geol_desc ]) ∧
    t.rows.length = (intervalsForIn T id).length ∧
    c.rects.length = (intervalsForIn T id).length ∧
    t.hide_index = true := by
  obtain ⟨-, hc, ht⟩ := render_detail_inv L T id loca c t h1 h2
  subst hc
  subst ht
  exact ⟨rfl, rfl, by simp [tableFor], by simp [chartFor], rfl⟩

/-- Witness for C7 (amended) at BH03: two rows with elevations derived
from ground level 46, four columns, no row index. -/
theorem C7_displayed_table_witness :
    (tableFor 46 (intervalsFor "BH03")).columns =
      ["Top_elev_OD", "Base_elev_OD", "GEOL_CODE", "GEOL_DESC"] ∧
    (tableFor 46 (intervalsFor "BH03")).rows = (intervalsFor "BH03").map (fun r =>
      [ Value.num ((46:ℚ) - r.top_bg), Value.num ((46:ℚ) - r.base_bg)
      , Value.str r.geol_code, Value.str r.geol_desc ]) ∧
    (tableFor 46 (intervalsFor "BH03")).rows.length = (intervalsFor "BH03").length ∧
    (chartFor 46 (intervalsFor "BH03")).rects.length = (intervalsFor "BH03").length ∧
    (tableFor 46 (intervalsFor "BH03")).hide_index = true :=
  C7_displayed_table loca_data litho_data "BH03" ⟨"BH03", 46, 551500, 181000⟩
    (chartFor 46 (intervalsFor "BH03")) (tableFor 46 (intervalsFor "BH03"))
    (by simp [findLocaIn, loca_data, List.find?])
    (by
      simp [renderWith, findLocaIn, loca_data, List.find?, intervalsForIn,
        intervalsFor, litho_data, topLE]
      norm_num
      simp)

/-- C8: the fill color of every rendered rectangle is the color the
formation map assigns to the geology code of its interval, the lookup
returning the mapped color for codes in the map and the default color
for codes absent from it. -/
theorem C8_fill_colors (L : List Loca) (T : List Litho) (id : String)
    (loca : Loca) (c : ChartView) (t : TableView)
    (h1 : findLocaIn L id = some loca)
    (h2 : renderWith L T id = some (RenderOutput.detail c t)) :
    c.rects.map (fun rc => rc.facecolor) =
      (intervalsForIn T id).map (fun r => colorFor r.geol_code) ∧
    (∀ code col, formation_colors.lookup code = some col → colorFor code = col) ∧
    (∀ code, formation_colors.lookup code = none → colorFor code = default_color) := by
  obtain ⟨-, hc, -⟩ := render_detail_inv L T id loca c t h1 h2
  subst hc
  refine ⟨by simp [chartFor, rectFor], ?_, ?_⟩
  · intro code col h
    simp [colorFor, h]
  · intro code h
    simp [colorFor, h]

/-- Witness for C8 at BH01: the three rectangle colors are the mapped
colors of the three codes, and the lookup behaviour holds for mapped
and unmapped codes alike. -/
theorem C8_fill_colors_witness :
    (chartFor 50 (intervalsFor "BH01")).rects.map (fun rc => rc.facecolor) =
      (intervalsFor "BH01").map (fun r => colorFor r.geol_code) ∧
    (∀ code col, formation_colors.lookup code = some col → colorFor code = col) ∧
    (∀ code, formation_colors.lookup code = none → colorFor code = default_color) :=
  C8_fill_colors loca_data litho_data "BH01" ⟨"BH01", 50, 551000, 180000⟩
    (chartFor 50 (intervalsFor "BH01")) (tableFor 50 (intervalsFor "BH01"))
    (by simp [findLocaIn, loca_data, List.find?])
    (by simp [renderWith, findLocaIn, loca_data, List.find?, intervalsForIn,
      intervalsFor, litho_data, topLE])

/-- C9: the hard-coded sample tables satisfy the unchecked invariants:
every lithology row has base depth strictly greater than top depth, the
sorted intervals of every location are contiguous (the base of each
interval equals the top of the next), and every location id referenced
by a lithology row exists in the location table. -/
theorem C9_data_invariants :
    (∀ r ∈ litho_data, r.top_bg < r.base_bg) ∧
    (∀ l ∈ loca_data, List.Chain' (fun a b => a.base_bg = b.top_bg)
      (intervalsFor l.loca_id)) ∧
    (∀ r ∈ litho_data, ∃ l ∈ loca_data, l.loca_id = r.loca_id) := by
  refine ⟨?_, ?_, ?_⟩
  · simp [litho_data]
    norm_num
  · simp [litho_data, loca_data, intervalsFor, intervalsForIn, topLE]
    norm_num
  · simp [litho_data, loca_data]

/-- C10: every location of the location table has at least one
lithology interval in the sample data, so with the embedded tables a
non-blank selection always renders the chart and the table and the
empty-state branch is unreachable. -/
theorem C10_no_empty_location (l : Loca) (h : l ∈ loca_data) :
    intervalsFor l.loca_id ≠ [] ∧
    render l.loca_id = some (RenderOutput.detail
      (chartFor l.loca_gl (intervalsFor l.loca_id))
      (tableFor l.loca_gl (intervalsFor l.loca_id))) := by
  fin_cases h
  · refine ⟨?_, ?_⟩
    · simp [intervalsFor, intervalsForIn, litho_data, topLE]
    · simp [render, renderWith, findLocaIn, loca_data, List.find?, intervalsFor,
        intervalsForIn, litho_data, topLE]
  · refine ⟨?_, ?_⟩
    · simp [intervalsFor, intervalsForIn, litho_data, topLE]
    · simp [render, renderWith, findLocaIn, loca_data, List.find?, intervalsFor,
        intervalsForIn, litho_data, topLE]
  · refine ⟨?_, ?_⟩
    · simp [intervalsFor, intervalsForIn, litho_data, topLE]
      norm_num
      simp
    · simp [render, renderWith, findLocaIn, loca_data, List.find?, intervalsFor,
        intervalsForIn, litho_data, topLE]
      norm_num
      simp

/-- Witness for C10 at BH01: the selection renders the detail pane. -/
theorem C10_no_empty_location_witness :
    intervalsFor "BH01" ≠ [] ∧
    render "BH01" = some (RenderOutput.detail
      (chartFor 50 (intervalsFor "BH01")) (tableFor 50 (intervalsFor "BH01"))) :=
  C10_no_empty_location ⟨"BH01", 50, 551000, 180000⟩ (by simp [loca_data])
